import Mathlib

/-!
Verification of the reactor + worker-pool dispatch engine of a UDP-based
CoAP server (`src/server.rs`).  The controller (`CoAPServer`), the reactor
step (`UdpHandler::ready` / `UdpHandler::notify`) and the worker task are
embedded shallowly.  Environment-dependent outcomes (socket clone, channel
receive, channel send, datagram receive, message decode) are passed as
explicit parameters; a Rust panic is modelled as a distinguished outcome
(`Option.none` for the reactor step, dedicated constructors elsewhere),
never as a returned state.
-/

/-- Socket addresses are abstract; only identity matters to the dispatch core. -/
abbrev SocketAddr := Nat

/-- A bound UDP socket handle (abstract). -/
abbrev UdpSocket := Nat

/-- The event-loop channel sender obtained from `event_loop.channel()` (abstract). -/
abbrev EventSender := Nat

/-- A spawned thread's join handle (abstract). -/
abbrev JoinHandle := Nat

/-- An `std::io::Error`: either the locally constructed
`Error::new(Other, "no address")` or a propagated OS-level error. -/
inductive IOErr where
  | noAddress : IOErr
  | sys (code : Nat) : IOErr
deriving DecidableEq, Repr

/-- `const DEFAULT_WORKER_NUM: usize = 4;` -/
def DEFAULT_WORKER_NUM : Nat := 4

/-- `enum CoAPServerError` from `src/server.rs`. -/
inductive CoAPServerError where
  | NetworkError : CoAPServerError
  | EventLoopError : CoAPServerError
  | AnotherHandlerIsRunning : CoAPServerError
deriving DecidableEq, Repr

/-- `struct CoAPServer`: the bound socket, the optional running-handle
(control-channel sender plus reactor thread join handle) and the
configured worker count. -/
structure CoAPServer where
  socket : UdpSocket
  event_sender : Option EventSender
  event_thread : Option JoinHandle
  worker_num : Nat
deriving DecidableEq, Repr

/-- `CoAPServer::new`: resolves the address (the resolution outcome is the
`resolved` parameter, an error or the list of candidate addresses), takes
the first candidate only, binds a UDP socket to it (`bound` gives the bind
outcome per address) and returns the controller with no running-handle and
the default worker count.  An empty resolution yields
`Error::new(Other, "no address")`. -/
def CoAPServer.new (resolved : Except IOErr (List SocketAddr))
    (bound : SocketAddr → Except IOErr UdpSocket) : Except IOErr CoAPServer :=
  match resolved with
  | .error e => .error e
  | .ok addrs =>
    match addrs with
    | [] => .error .noAddress
    | ad :: _ =>
      match bound ad with
      | .error e => .error e
      | .ok s =>
        .ok { socket := s, event_sender := none, event_thread := none,
              worker_num := DEFAULT_WORKER_NUM }

/-- Result of `CoAPServer::handle`: the controller state after the call,
the returned `Result`, and the pool size handed to the spawned reactor
thread (`ThreadPool::new(worker_num)`), `none` when no thread was spawned. -/
structure HandleOutcome where
  state : CoAPServer
  result : Except CoAPServerError Unit
  spawnedPool : Option Nat
deriving Repr

/-- `CoAPServer::handle`: if a running-handle is present, fail with
`AnotherHandlerIsRunning` and change nothing.  Otherwise clone the socket
(`cloneResult`); on clone failure fail with `NetworkError`.  On clone
success a reactor thread is spawned with the captured `worker_num`; the
call then blocks on `rx.recv()` (`recvResult`): receiving the registration
signal installs the running-handle and returns `Ok`, a receive error (the
thread exited before sending) returns `EventLoopError` with the
running-handle still absent. -/
def CoAPServer.handle (s : CoAPServer)
    (cloneResult : Except IOErr UdpSocket)
    (recvResult : Except Unit EventSender)
    (thread : JoinHandle) : HandleOutcome :=
  match s.event_sender with
  | some _ => ⟨s, .error .AnotherHandlerIsRunning, none⟩
  | none =>
    match cloneResult with
    | .error _ => ⟨s, .error .NetworkError, none⟩
    | .ok _ =>
      match recvResult with
      | .ok sender =>
        ⟨{ s with event_sender := some sender, event_thread := some thread },
         .ok (), some s.worker_num⟩
      | .error _ => ⟨s, .error .EventLoopError, some s.worker_num⟩

/-- Outcome of `CoAPServer::stop`: either a normal return with the state
the controller is left in, or a panic (the `sender.send(()).unwrap()`
failed); on panic the sender had already been taken. -/
inductive StopOutcome where
  | returned (s : CoAPServer) : StopOutcome
  | panicked (s : CoAPServer) : StopOutcome
deriving DecidableEq, Repr

/-- `CoAPServer::stop`: takes the sender out of the running-handle; with no
sender present this is a no-op.  With a sender present, `send(())` is
unwrapped: `sendOk` tells whether the reactor side of the channel is still
alive to accept the token.  On success the thread handle is taken and
joined (the join result is discarded), leaving both halves cleared; on
send failure the unwrap panics. -/
def CoAPServer.stop (s : CoAPServer) (sendOk : Bool) : StopOutcome :=
  match s.event_sender with
  | none => .returned s
  | some _ =>
    if sendOk then
      .returned { s with event_sender := none, event_thread := none }
    else
      .panicked { s with event_sender := none }

/-- `impl Drop for CoAPServer`: destruction calls `self.stop()`. -/
def CoAPServer.drop (s : CoAPServer) (sendOk : Bool) : StopOutcome :=
  s.stop sendOk

/-- `CoAPServer::set_worker_num`: record the pool size for the next start. -/
def CoAPServer.set_worker_num (s : CoAPServer) (n : Nat) : CoAPServer :=
  { s with worker_num := n }

/-- The `EventSet` passed to `ready`; the code only inspects `is_readable`. -/
structure EventSet where
  readable : Bool
deriving DecidableEq, Repr

/-- Outcome of `self.socket.recv_from(&mut buf)` in `ready`:
`Ok(Some(src))` with the bytes read, `Ok(None)` (no datagram available),
or `Err(_)`. -/
inductive RecvOutcome where
  | datagram (src : SocketAddr) (buf : List Nat) : RecvOutcome
  | noDatagram : RecvOutcome
  | recvErr : RecvOutcome
deriving DecidableEq, Repr

/-- A task submitted to the worker pool: the captured buffer and the
originating peer address. -/
structure WorkUnit where
  src : SocketAddr
  buf : List Nat
deriving DecidableEq, Repr

/-- The reactor-side state: the cloned socket owned by `UdpHandler` and the
event loop's shutdown flag. -/
structure ReactorState where
  socket : UdpSocket
  shutdown : Bool
deriving DecidableEq, Repr

/-- One occurrence the event loop dispatches on: a readiness notification
for the registered socket (with the receive outcome the read will see), or
the out-of-band `()` message delivered through the loop's channel. -/
inductive ReactorEvent where
  | readiness (events : EventSet) (recv : RecvOutcome) : ReactorEvent
  | message : ReactorEvent
deriving DecidableEq, Repr

/-- One dispatch step of the reactor.  `ready`: when the events are not
readable, nothing happens; when readable, `recv_from` is matched —
`Ok(Some(src))` submits one decode-and-handle task to the pool, and every
other outcome (`Ok(None)` included) hits `_ => panic!("unexpected error")`,
modelled as `none`.  `notify`: `event_loop.shutdown()` sets the shutdown
flag.  A `some` result carries the next state and the tasks submitted. -/
def reactorStep (st : ReactorState) : ReactorEvent → Option (ReactorState × List WorkUnit)
  | .readiness ev rcv =>
    if ev.readable then
      match rcv with
      | .datagram src buf => some (st, [⟨src, buf⟩])
      | _ => none
    else
      some (st, [])
  | .message => some ({ st with shutdown := true }, [])

/-- Outcome of running the event loop over a finite schedule of events:
the loop exited normally (shutdown observed), ran out of scheduled events
while still live, or panicked inside a step.  Each outcome carries the
tasks submitted to the worker pool along the way. -/
inductive RunOutcome where
  | terminated (tasks : List WorkUnit) : RunOutcome
  | pending (st : ReactorState) (tasks : List WorkUnit) : RunOutcome
  | panicked (tasks : List WorkUnit) : RunOutcome
deriving DecidableEq, Repr

/-- `event_loop.run`: dispatch scheduled events in order; after each step
check the shutdown flag and exit the loop when it is set.  A panicking
step aborts the run. -/
def eventLoopRun (st : ReactorState) : List ReactorEvent → RunOutcome
  | [] => .pending st []
  | e :: rest =>
    match reactorStep st e with
    | none => .panicked []
    | some (st', tasks) =>
      if st'.shutdown then .terminated tasks
      else
        match eventLoopRun st' rest with
        | .terminated ts => .terminated (tasks ++ ts)
        | .pending s ts => .pending s (tasks ++ ts)
        | .panicked ts => .panicked (tasks ++ ts)

/-- Observable outcome of one worker-pool task: the task returned with no
handler call (decode failure), the task panicked
(`CoAPClient::new(src).unwrap()` failed), or the handler was invoked once
with the decoded packet and the constructed responder. -/
inductive TaskOutcome (Packet Client : Type) where
  | silent : TaskOutcome Packet Client
  | panicked : TaskOutcome Packet Client
  | handled (p : Packet) (c : Client) : TaskOutcome Packet Client
deriving DecidableEq, Repr

/-- The closure submitted to the worker pool in `ready`:
`Packet::from_bytes(buf.bytes())` (the codec is the external collaborator
`from_bytes`); on decode failure `return` with no further effect; on
success construct `CoAPClient::new(src)` (unwrapped — failure panics) and
invoke the handler with the packet and the client. -/
def workerTask {Packet Client : Type}
    (from_bytes : List Nat → Except Unit Packet)
    (client_new : SocketAddr → Except Unit Client)
    (w : WorkUnit) : TaskOutcome Packet Client :=
  match from_bytes w.buf with
  | .error _ => .silent
  | .ok p =>
    match client_new w.src with
    | .error _ => .panicked
    | .ok c => .handled p c

/-- The handler invocations produced by a sequence of task outcomes, in
order: one entry per task whose handler ran. -/
def handlerInvocations {Packet Client : Type}
    (outs : List (TaskOutcome Packet Client)) : List (Packet × Client) :=
  outs.filterMap fun o =>
    match o with
    | .handled p c => some (p, c)
    | _ => none

/-- Controller states reachable through the public operations: a freshly
bound controller, any state after a `handle` call, any state returned
normally by `stop` (hence also by `drop`), and any state after
`set_worker_num`. -/
inductive Reachable : CoAPServer → Prop where
  | of_new : ∀ resolved bound s, CoAPServer.new resolved bound = .ok s → Reachable s
  | of_handle : ∀ s cloneResult recvResult thread, Reachable s →
      Reachable (CoAPServer.handle s cloneResult recvResult thread).state
  | of_stop : ∀ s sendOk s', Reachable s → s.stop sendOk = .returned s' → Reachable s'
  | of_set : ∀ s n, Reachable s → Reachable (s.set_worker_num n)

/-- Claim C1: with a running-handle present (`event_sender` is `Some`),
`handle` returns `AnotherHandlerIsRunning` (the spec's `AlreadyRunning`)
and leaves the whole controller state unchanged — socket, running-handle
and worker count as before — spawning no reactor thread or pool, so the
first run continues unaffected. -/
theorem handle_already_running (s : CoAPServer) (x : EventSender)
    (h : s.event_sender = some x)
    (cloneResult : Except IOErr UdpSocket) (recvResult : Except Unit EventSender)
    (thread : JoinHandle) :
    s.handle cloneResult recvResult thread =
      ⟨s, .error .AnotherHandlerIsRunning, none⟩ := by
  simp [CoAPServer.handle, h]

/-- Witness for C1 at a concrete running controller. -/
theorem handle_already_running_witness :
    (CoAPServer.mk 7 (some 1) (some 2) 4).handle (.ok 9) (.ok 3) 5 =
      ⟨CoAPServer.mk 7 (some 1) (some 2) 4, .error .AnotherHandlerIsRunning, none⟩ :=
  handle_already_running _ 1 rfl _ _ _

/-- Claim C2: `stop` is idempotent — with no running-handle it returns the
state unchanged whatever the channel would do; with a running-handle and a
live channel it clears both halves of the running-handle (socket and
worker count kept); any state that `stop` returns normally is a fixed
point of `stop`; and `drop` is exactly a call to `stop`. -/
theorem stop_idempotent_and_drop (s : CoAPServer) :
    (s.event_sender = none → ∀ sendOk, s.stop sendOk = .returned s) ∧
    (∀ x, s.event_sender = some x →
      s.stop true = .returned { s with event_sender := none, event_thread := none }) ∧
    (∀ s' sendOk sendOk2, s.stop sendOk = .returned s' → s'.stop sendOk2 = .returned s') ∧
    (∀ sendOk, s.drop sendOk = s.stop sendOk) := by
  refine ⟨?_, ?_, ?_, fun _ => rfl⟩
  · intro h sendOk
    simp [CoAPServer.stop, h]
  · intro x h
    simp [CoAPServer.stop, h]
  · intro s' sendOk sendOk2 h
    cases hs : s.event_sender with
    | none =>
      simp [CoAPServer.stop, hs] at h
      subst h
      simp [CoAPServer.stop, hs]
    | some x =>
      cases sendOk with
      | false => simp [CoAPServer.stop, hs] at h
      | true =>
        simp [CoAPServer.stop, hs] at h
        subst h
        simp [CoAPServer.stop]

/-- Witness for C2: a never-started controller is untouched by `stop`, and
a running controller is cleared by the first `stop` and untouched by the
second. -/
theorem stop_idempotent_and_drop_witness :
    (CoAPServer.mk 7 none none 4).stop true = .returned (CoAPServer.mk 7 none none 4) ∧
    (CoAPServer.mk 7 (some 1) (some 2) 4).stop true =
      .returned (CoAPServer.mk 7 none none 4) ∧
    (CoAPServer.mk 7 none none 4).stop false = .returned (CoAPServer.mk 7 none none 4) :=
  ⟨(stop_idempotent_and_drop _).1 rfl true,
   (stop_idempotent_and_drop _).2.1 1 rfl,
   (stop_idempotent_and_drop (CoAPServer.mk 7 (some 1) (some 2) 4)).2.2.1
     (CoAPServer.mk 7 none none 4) true false
     ((stop_idempotent_and_drop (CoAPServer.mk 7 (some 1) (some 2) 4)).2.1 1 rfl)⟩

/-- Claim C3: with no run active, `handle` returns `NetworkError` exactly
when the socket clone fails, `EventLoopError` exactly when the clone
succeeds but the registration signal is never received over the one-shot
channel, and `Ok` exactly when the clone succeeds and the signal arrives. -/
theorem handle_error_classification (s : CoAPServer) (h : s.event_sender = none)
    (cloneResult : Except IOErr UdpSocket) (recvResult : Except Unit EventSender)
    (thread : JoinHandle) :
    ((s.handle cloneResult recvResult thread).result = .error .NetworkError ↔
       ∃ e, cloneResult = .error e) ∧
    ((s.handle cloneResult recvResult thread).result = .error .EventLoopError ↔
       (∃ sock, cloneResult = .ok sock) ∧ recvResult = .error ()) ∧
    ((s.handle cloneResult recvResult thread).result = .ok () ↔
       (∃ sock, cloneResult = .ok sock) ∧ ∃ snd, recvResult = .ok snd) := by
  cases cloneResult <;> cases recvResult <;> simp [CoAPServer.handle, h]

/-- Witness for C3: the three outcomes at concrete inputs. -/
theorem handle_error_classification_witness :
    ((CoAPServer.mk 7 none none 4).handle (.error (.sys 24)) (.error ()) 5).result =
      .error .NetworkError ∧
    ((CoAPServer.mk 7 none none 4).handle (.ok 9) (.error ()) 5).result =
      .error .EventLoopError ∧
    ((CoAPServer.mk 7 none none 4).handle (.ok 9) (.ok 3) 5).result = .ok () :=
  ⟨(handle_error_classification _ rfl _ _ _).1.mpr ⟨.sys 24, rfl⟩,
   (handle_error_classification _ rfl _ _ _).2.1.mpr ⟨⟨9, rfl⟩, rfl⟩,
   (handle_error_classification _ rfl _ _ _).2.2.mpr ⟨⟨9, rfl⟩, 3, rfl⟩⟩

/-- Counterexample for C4: at a concrete reactor state, a readable
notification whose receive yields "no datagram available" (`Ok(None)`)
makes the ready step panic (`none`), not the claimed no-op
`some (state, [])`. -/
theorem ready_noDatagram_counterexample :
    reactorStep ⟨7, false⟩ (.readiness ⟨true⟩ .noDatagram) = none ∧
    reactorStep ⟨7, false⟩ (.readiness ⟨true⟩ .noDatagram) ≠
      some (⟨7, false⟩, []) := by
  decide

/-- Claim C4 (amended): on a readable notification, `ready` falls into
`_ => panic!("unexpected error")` both when the receive reports "no
datagram available" (`Ok(None)`) and on a receive error — it panics rather
than acting as a no-op; only a notification that is not readable is a true
no-op (no task submitted, state unchanged, no panic). -/
theorem ready_noDatagram_panics (st : ReactorState) :
    reactorStep st (.readiness ⟨true⟩ .noDatagram) = none ∧
    reactorStep st (.readiness ⟨true⟩ .recvErr) = none ∧
    (∀ rcv, reactorStep st (.readiness ⟨false⟩ rcv) = some (st, [])) :=
  ⟨rfl, rfl, fun _ => rfl⟩

/-- Claim C5: a worker task whose buffer fails to decode ends silently —
no responder, no handler call, no surfaced error — and a malformed
datagram followed by a well-formed one yields exactly one handler
invocation, for the well-formed one only. -/
theorem decode_failure_isolation {Packet Client : Type}
    (from_bytes : List Nat → Except Unit Packet)
    (client_new : SocketAddr → Except Unit Client)
    (w1 w2 : WorkUnit) (p2 : Packet) (c2 : Client)
    (h1 : from_bytes w1.buf = .error ())
    (h2 : from_bytes w2.buf = .ok p2)
    (h3 : client_new w2.src = .ok c2) :
    workerTask from_bytes client_new w1 = .silent ∧
    handlerInvocations [workerTask from_bytes client_new w1,
                        workerTask from_bytes client_new w2] = [(p2, c2)] := by
  constructor
  · simp [workerTask, h1]
  · simp [workerTask, handlerInvocations, h1, h2, h3]

/-- Witness for C5 with a concrete codec: `[0]` is malformed, anything
else decodes to its length. -/
theorem decode_failure_isolation_witness :
    workerTask (fun b => if b = [0] then .error () else .ok b.length)
        (fun a => .ok a) ⟨1, [0]⟩ = (.silent : TaskOutcome Nat Nat) ∧
    handlerInvocations
        [workerTask (fun b => if b = [0] then .error () else .ok b.length)
           (fun a => .ok a) ⟨1, [0]⟩,
         workerTask (fun b => if b = [0] then .error () else .ok b.length)
           (fun a => .ok a) ⟨2, [3, 4]⟩] = [(2, 2)] :=
  decode_failure_isolation _ _ ⟨1, [0]⟩ ⟨2, [3, 4]⟩ 2 2 rfl rfl rfl

/-- Claim C6: `new` propagates a resolution failure, fails with the
"no address" error when resolution yields no candidate, uses only the
first resolved address, propagates a bind failure on that address, and on
bind success returns a controller with no running-handle installed and the
default worker count. -/
theorem new_resolution_and_bind (bound : SocketAddr → Except IOErr UdpSocket) :
    (∀ e, CoAPServer.new (.error e) bound = .error e) ∧
    (CoAPServer.new (.ok []) bound = .error .noAddress) ∧
    (∀ a rest, CoAPServer.new (.ok (a :: rest)) bound = CoAPServer.new (.ok [a]) bound) ∧
    (∀ a rest e, bound a = .error e →
      CoAPServer.new (.ok (a :: rest)) bound = .error e) ∧
    (∀ a rest sock, bound a = .ok sock →
      CoAPServer.new (.ok (a :: rest)) bound =
        .ok ⟨sock, none, none, DEFAULT_WORKER_NUM⟩) := by
  refine ⟨fun e => rfl, rfl, fun a rest => rfl, ?_, ?_⟩
  · intro a rest e h
    simp [CoAPServer.new, h]
  · intro a rest sock h
    simp [CoAPServer.new, h]

/-- Witness for C6: a two-candidate resolution binds the first address
only, and a failing bind is propagated. -/
theorem new_resolution_and_bind_witness :
    CoAPServer.new (.ok [5, 6]) (fun a => if a = 5 then .ok 11 else .error (.sys 13)) =
      .ok ⟨11, none, none, DEFAULT_WORKER_NUM⟩ ∧
    CoAPServer.new (.ok [8]) (fun a => if a = 5 then .ok 11 else .error (.sys 13)) =
      .error (.sys 13) :=
  ⟨(new_resolution_and_bind _).2.2.2.2 5 [6] 11 rfl,
   (new_resolution_and_bind _).2.2.2.1 8 [] (.sys 13) rfl⟩

/-- A readiness dispatch never changes the reactor state: it either
panics or returns the state unchanged with the tasks it submitted. -/
theorem readiness_step_cases (st : ReactorState) (ev : EventSet) (rcv : RecvOutcome) :
    reactorStep st (.readiness ev rcv) = none ∨
    ∃ ts, reactorStep st (.readiness ev rcv) = some (st, ts) := by
  by_cases hr : ev.readable <;> cases rcv <;> simp [reactorStep, hr]

/-- Claim C7: receipt of the shutdown token makes the event loop
terminate immediately (whatever events were still scheduled), and among
non-panicking executions it is the only termination path: a run from a
live loop state that terminates must have processed the shutdown token. -/
theorem shutdown_token_only_termination (st : ReactorState)
    (events : List ReactorEvent) (h : st.shutdown = false) :
    (∀ rest, eventLoopRun st (.message :: rest) = .terminated []) ∧
    (∀ tasks, eventLoopRun st events = .terminated tasks →
      ReactorEvent.message ∈ events) := by
  constructor
  · intro rest
    simp [eventLoopRun, reactorStep]
  · have key : ∀ (evs : List ReactorEvent) (s0 : ReactorState), s0.shutdown = false →
        ∀ tasks, eventLoopRun s0 evs = .terminated tasks →
          ReactorEvent.message ∈ evs := by
      intro evs
      induction evs with
      | nil =>
        intro s0 h0 tasks ht
        simp [eventLoopRun] at ht
      | cons e rest ih =>
        intro s0 h0 tasks ht
        cases e with
        | message => exact List.mem_cons_self _ _
        | readiness ev rcv =>
          rcases readiness_step_cases s0 ev rcv with hnone | ⟨ts, hsome⟩
          · simp [eventLoopRun, hnone] at ht
          · simp only [eventLoopRun, hsome, h0, if_false] at ht
            cases hrun : eventLoopRun s0 rest with
            | terminated ts2 =>
              exact List.mem_cons_of_mem _ (ih s0 h0 ts2 hrun)
            | pending s2 ts2 =>
              rw [hrun] at ht
              simp at ht
            | panicked ts2 =>
              rw [hrun] at ht
              simp at ht
    exact key events st h

/-- Witness for C7: a live loop fed exactly the shutdown token terminates. -/
theorem shutdown_token_only_termination_witness :
    eventLoopRun ⟨7, false⟩ [ReactorEvent.message] = .terminated [] :=
  (shutdown_token_only_termination ⟨7, false⟩ [] rfl).1 []

/-- Claim C8: `set_worker_num` writes only the worker-count field
(socket and both halves of the running-handle unchanged); that count is
the pool size handed to the reactor spawned by the next successful start;
on a running controller a start after `set_worker_num` still fails with
`AnotherHandlerIsRunning` and spawns nothing; and a freshly bound
controller carries the default worker count 4. -/
theorem set_worker_num_spec (s : CoAPServer) (n : Nat) :
    ((s.set_worker_num n).worker_num = n ∧
     (s.set_worker_num n).socket = s.socket ∧
     (s.set_worker_num n).event_sender = s.event_sender ∧
     (s.set_worker_num n).event_thread = s.event_thread) ∧
    (∀ sock recvResult thread, s.event_sender = none →
      ((s.set_worker_num n).handle (.ok sock) recvResult thread).spawnedPool = some n) ∧
    (∀ x cloneResult recvResult thread, s.event_sender = some x →
      (s.set_worker_num n).handle cloneResult recvResult thread =
        ⟨s.set_worker_num n, .error .AnotherHandlerIsRunning, none⟩) ∧
    (∀ resolved bound s0, CoAPServer.new resolved bound = .ok s0 →
      s0.worker_num = DEFAULT_WORKER_NUM) ∧
    DEFAULT_WORKER_NUM = 4 := by
  refine ⟨⟨rfl, rfl, rfl, rfl⟩, ?_, ?_, ?_, rfl⟩
  · intro sock recvResult thread h
    cases recvResult <;> simp [CoAPServer.handle, CoAPServer.set_worker_num, h]
  · intro x cloneResult recvResult thread h
    simp [CoAPServer.handle, CoAPServer.set_worker_num, h]
  · intro resolved bound s0 h
    cases resolved with
    | error e => simp [CoAPServer.new] at h
    | ok addrs =>
      cases addrs with
      | nil => simp [CoAPServer.new] at h
      | cons a rest =>
        cases hb : bound a with
        | error e => simp [CoAPServer.new, hb] at h
        | ok sock =>
          simp [CoAPServer.new, hb] at h
          subst h
          rfl

/-- Witness for C8 at concrete controllers, idle and running. -/
theorem set_worker_num_spec_witness :
    ((CoAPServer.mk 7 none none 4).set_worker_num 9).worker_num = 9 ∧
    (((CoAPServer.mk 7 none none 4).set_worker_num 9).handle
        (.ok 8) (.ok 3) 5).spawnedPool = some 9 ∧
    ((CoAPServer.mk 7 (some 1) (some 2) 4).set_worker_num 9).handle (.ok 8) (.ok 3) 5 =
      ⟨(CoAPServer.mk 7 (some 1) (some 2) 4).set_worker_num 9,
       .error .AnotherHandlerIsRunning, none⟩ :=
  ⟨(set_worker_num_spec (CoAPServer.mk 7 none none 4) 9).1.1,
   (set_worker_num_spec (CoAPServer.mk 7 none none 4) 9).2.1 8 (.ok 3) 5 rfl,
   (set_worker_num_spec (CoAPServer.mk 7 (some 1) (some 2) 4) 9).2.2.1 1 (.ok 8) (.ok 3) 5 rfl⟩

/-- Claim C9: in every controller state reachable through the public
operations, the control-channel sender and the reactor thread handle are
present or absent together — the running-handle never splits. -/
theorem running_handle_coherence (s : CoAPServer) (h : Reachable s) :
    s.event_sender.isSome = s.event_thread.isSome := by
  induction h with
  | of_new resolved bound s0 hnew =>
    cases resolved with
    | error e => simp [CoAPServer.new] at hnew
    | ok addrs =>
      cases addrs with
      | nil => simp [CoAPServer.new] at hnew
      | cons a rest =>
        cases hb : bound a with
        | error e => simp [CoAPServer.new, hb] at hnew
        | ok sock =>
          simp [CoAPServer.new, hb] at hnew
          subst hnew
          rfl
  | of_handle s0 cloneResult recvResult thread hr ih =>
    cases hs : s0.event_sender with
    | some x => simpa [CoAPServer.handle, hs] using ih
    | none =>
      cases cloneResult with
      | error e => simpa [CoAPServer.handle, hs] using ih
      | ok sock =>
        cases recvResult with
        | ok snd => simp [CoAPServer.handle, hs]
        | error u => simpa [CoAPServer.handle, hs] using ih
  | of_stop s0 sendOk s' hr hstop ih =>
    cases hs : s0.event_sender with
    | none =>
      simp [CoAPServer.stop, hs] at hstop
      subst hstop
      exact ih
    | some x =>
      cases sendOk with
      | false => simp [CoAPServer.stop, hs] at hstop
      | true =>
        simp [CoAPServer.stop, hs] at hstop
        subst hstop
        rfl
  | of_set s0 n hr ih => simpa [CoAPServer.set_worker_num] using ih

/-- Witness for C9: a freshly bound controller is reachable and coherent. -/
theorem running_handle_coherence_witness :
    (CoAPServer.mk 11 none none 4).event_sender.isSome =
      (CoAPServer.mk 11 none none 4).event_thread.isSome :=
  running_handle_coherence _
    (.of_new (.ok [5]) (fun _ => .ok 11) (CoAPServer.mk 11 none none 4) rfl)

/-- Claim C10: on a controller with an active running-handle, `stop`
returns normally only when the reactor side of the control channel is
still alive: a failed `send` makes the unwrap panic (the sender having
already been taken), while a live channel yields a normal return with the
running-handle cleared. -/
theorem stop_send_unwrap (s : CoAPServer) (x : EventSender)
    (h : s.event_sender = some x) :
    s.stop false = .panicked { s with event_sender := none } ∧
    (∀ s', s.stop false ≠ .returned s') ∧
    s.stop true = .returned { s with event_sender := none, event_thread := none } := by
  refine ⟨?_, ?_, ?_⟩ <;> simp [CoAPServer.stop, h]

/-- Witness for C10 at a concrete running controller. -/
theorem stop_send_unwrap_witness :
    (CoAPServer.mk 7 (some 1) (some 2) 4).stop false =
      .panicked (CoAPServer.mk 7 none (some 2) 4) ∧
    (CoAPServer.mk 7 (some 1) (some 2) 4).stop true =
      .returned (CoAPServer.mk 7 none none 4) :=
  ⟨(stop_send_unwrap (CoAPServer.mk 7 (some 1) (some 2) 4) 1 rfl).1,
   (stop_send_unwrap (CoAPServer.mk 7 (some 1) (some 2) 4) 1 rfl).2.2⟩
